import Mathlib

/-
Verification of the `et` Either library (src/include/et/either.hpp): a shallow
embedding of the storage model, the unit (degenerate) forms, the full
Either<S, E> type and its accessors, conversions, equality and streaming
operators, followed by theorems settling the specification claims.

Modelling conventions:
  - Machine state is explicit: member functions that mutate `*this` are
    functions returning the updated value; functions that may throw return
    `Except EtError _`.
  - The anonymous union inside `detail::Storage` is modelled as
    `val_ : Option (S ⊕ E)`, recording the union member most recently
    written (`none` for a union that was never written, as happens when
    move-constructing from an empty source). Reading the inactive union
    member is undefined behaviour in C++ and cannot happen through the
    public API; the embedding makes that branch explicit as the
    `unionMisread` outcome so every definition stays total and executable.
-/

namespace Et

/-- Discriminant of the storage, from `enum class StorageState` (line 82). -/
inductive StorageState
  | kEmpty
  | kHasError
  | kHasSuccess
deriving DecidableEq, Repr

/-- Failure outcomes of the library. `badEitherAccess` models a thrown
`et::BadEitherAccess` (lines 28-31) and carries the message string;
`badEitherAssign` models a thrown `et::BadEitherAssign` (lines 33-36);
`unionMisread` marks the undefined behaviour of reading the inactive
union member, which no well-formed value can reach. -/
inductive EtError
  | badEitherAccess (msg : String)
  | badEitherAssign (msg : String)
  | unionMisread
deriving DecidableEq, Repr

/-- The storage layer, from `detail::Storage<S, E>` (lines 85-226): a
discriminant plus a union of the success and error payloads. Both the
trivially-destructible specialization and the general one carry exactly
these two data members; they differ only in destructor generation, which
has no observable effect in the embedding. -/
structure Storage (S E : Type) where
  state_ : StorageState
  val_ : Option (S ⊕ E)
deriving DecidableEq, Repr

variable {S E : Type}

/-- Storage tag constructor `Storage(SuccessTagType, SuccessType)` (lines
124-132): sets the discriminant to `kHasSuccess` and writes the success
union member. -/
def Storage.mkSuccess (s : S) : Storage S E :=
  ⟨StorageState.kHasSuccess, some (Sum.inl s)⟩

/-- Storage tag constructor `Storage(ErrorTagType, ErrorType)` (lines
134-144): sets the discriminant to `kHasError` and writes the error union
member. -/
def Storage.mkError (e : E) : Storage S E :=
  ⟨StorageState.kHasError, some (Sum.inr e)⟩

/-- The template move constructor `Storage(Storage&&)` (lines 106-120 and
176-186): copies the discriminant, moves the live union member, and resets
the source discriminant to `kEmpty` (the moved-from union member keeps its
bytes). When the source is empty, the destination union member is never
written. Returns the pair (constructed destination, source afterwards). -/
def Storage.moveCtor (that : Storage S E) : Storage S E × Storage S E :=
  if that.state_ = StorageState.kHasSuccess then
    (⟨that.state_, that.val_⟩, ⟨StorageState.kEmpty, that.val_⟩)
  else if that.state_ = StorageState.kHasError then
    (⟨that.state_, that.val_⟩, ⟨StorageState.kEmpty, that.val_⟩)
  else
    (⟨that.state_, none⟩, that)

/-- Representation invariant: the discriminant matches the union member
most recently written. Every value producible through the public API
satisfies it. -/
def Storage.wf : Storage S E → Bool
  | ⟨StorageState.kHasSuccess, some (Sum.inl _)⟩ => true
  | ⟨StorageState.kHasError, some (Sum.inr _)⟩ => true
  | ⟨StorageState.kEmpty, _⟩ => true
  | _ => false

/-- The unit success form `Either<S, void>` (lines 252-295): a bare success
payload with no discriminant. -/
structure EitherSVoid (S : Type) where
  succ_val_ : S
deriving DecidableEq, Repr

/-- The unit error form `Either<void, E>` (lines 297-340): a bare error
payload with no discriminant. -/
structure EitherVoidE (E : Type) where
  err_val_ : E
deriving DecidableEq, Repr

/-- Free factory `et::Success` (lines 342-345): wraps the value in the
unit success form. -/
def Success (s : S) : EitherSVoid S := ⟨s⟩

/-- Free factory `et::Error` (lines 347-350): wraps the value in the unit
error form. -/
def Error (e : E) : EitherVoidE E := ⟨e⟩

/-- Line 272: `Either<S, void>::IsSuccess` is constantly true. -/
def EitherSVoid.IsSuccess (_ : EitherSVoid S) : Bool := true

/-- Line 273: `Either<S, void>::IsError` is constantly false. -/
def EitherSVoid.IsError (_ : EitherSVoid S) : Bool := false

/-- Line 275: `Either<S, void>::operator bool` is constantly true. -/
def EitherSVoid.toBool (_ : EitherSVoid S) : Bool := true

/-- Lines 278-280: `Either<S, void>::Success() const&` returns the payload
and never fails. -/
def EitherSVoid.Success (e : EitherSVoid S) : S := e.succ_val_

/-- Lines 289-291: `Either<S, void>::Error()` always throws
`BadEitherAccess`; its return type is void, modelled as `Unit`. -/
def EitherSVoid.Error (_ : EitherSVoid S) : Except EtError Unit :=
  Except.error (EtError.badEitherAccess "[et::Either<S, void>::Error]")

/-- Line 317: `Either<void, E>::IsSuccess` is constantly false. -/
def EitherVoidE.IsSuccess (_ : EitherVoidE E) : Bool := false

/-- Line 318: `Either<void, E>::IsError` is constantly true. -/
def EitherVoidE.IsError (_ : EitherVoidE E) : Bool := true

/-- Line 320: `Either<void, E>::operator bool` is constantly false. -/
def EitherVoidE.toBool (_ : EitherVoidE E) : Bool := false

/-- Lines 322-324: `Either<void, E>::Success()` always throws
`BadEitherAccess`. -/
def EitherVoidE.Success (_ : EitherVoidE E) : Except EtError Unit :=
  Except.error (EtError.badEitherAccess "[et::Either<void, E>::Success]")

/-- Lines 327-329: `Either<void, E>::Error() const&` returns the payload
and never fails. -/
def EitherVoidE.Error (e : EitherVoidE E) : E := e.err_val_

/-- The full two-sided type `Either<S, E>` (lines 352-550) adds no data
members over its private base `detail::Storage<S, E>`. -/
abbrev EitherSE (S E : Type) : Type := Storage S E

/-- Lines 472-474: `Either<S, E>::IsSuccess` tests the discriminant. -/
def EitherSE.IsSuccess (e : EitherSE S E) : Bool :=
  decide (e.state_ = StorageState.kHasSuccess)

/-- Lines 475-477: `Either<S, E>::IsError` tests the discriminant. -/
def EitherSE.IsError (e : EitherSE S E) : Bool :=
  decide (e.state_ = StorageState.kHasError)

/-- Line 362: `Either<S, E>::operator bool` is `IsSuccess()`. -/
def EitherSE.toBool (e : EitherSE S E) : Bool := e.IsSuccess

/-- Lines 486-491: `Either<S, E>::Success() const&` returns the success
payload when the discriminant is `kHasSuccess` and otherwise throws
`BadEitherAccess`. -/
def EitherSE.SuccessRef (e : EitherSE S E) : Except EtError S :=
  if e.state_ = StorageState.kHasSuccess then
    match e.val_ with
    | some (Sum.inl s) => Except.ok s
    | _ => Except.error EtError.unionMisread
  else
    Except.error
      (EtError.badEitherAccess "[et::Either<S, E>::Success] invalid state access")

/-- Lines 493-500: the destructive `Either<S, E>::Success() &&` sets the
discriminant to `kEmpty` and moves the payload out (the union bytes stay);
on a state mismatch it throws `BadEitherAccess`. Returns the payload
together with the instance afterwards. -/
def EitherSE.SuccessMove (e : EitherSE S E) :
    Except EtError (S × EitherSE S E) :=
  if e.state_ = StorageState.kHasSuccess then
    match e.val_ with
    | some (Sum.inl s) => Except.ok (s, ⟨StorageState.kEmpty, e.val_⟩)
    | _ => Except.error EtError.unionMisread
  else
    Except.error
      (EtError.badEitherAccess "[et::Either<S, E>::Success] invalid state access")

/-- Lines 518-523: `Either<S, E>::Error() const&` returns the error
payload when the discriminant is `kHasError` and otherwise throws
`BadEitherAccess`. -/
def EitherSE.ErrorRef (e : EitherSE S E) : Except EtError E :=
  if e.state_ = StorageState.kHasError then
    match e.val_ with
    | some (Sum.inr x) => Except.ok x
    | _ => Except.error EtError.unionMisread
  else
    Except.error
      (EtError.badEitherAccess "[et::Either<S, E>::Error] invalid state access")

/-- Lines 525-532: the destructive `Either<S, E>::Error() &&` sets the
discriminant to `kEmpty` and moves the payload out; on a state mismatch it
throws `BadEitherAccess`. -/
def EitherSE.ErrorMove (e : EitherSE S E) :
    Except EtError (E × EitherSE S E) :=
  if e.state_ = StorageState.kHasError then
    match e.val_ with
    | some (Sum.inr x) => Except.ok (x, ⟨StorageState.kEmpty, e.val_⟩)
    | _ => Except.error EtError.unionMisread
  else
    Except.error
      (EtError.badEitherAccess "[et::Either<S, E>::Error] invalid state access")

/-- Conversion constructor from a unit success lvalue (lines 394-398):
delegates to `Base(SuccessTag, that.Success())`. -/
def EitherSE.ofUnitSuccessCopy (that : EitherSVoid S) : EitherSE S E :=
  Storage.mkSuccess that.Success

/-- Conversion constructor from a unit success rvalue (lines 400-405):
copies `that` (the cast `static_cast<Either<SuccessType, void>>(that)`
builds a temporary from the lvalue `that`), then moves the payload out of
the temporary. The resulting storage is success-tagged with an equal
payload. -/
def EitherSE.ofUnitSuccessMove (that : EitherSVoid S) : EitherSE S E :=
  Storage.mkSuccess that.succ_val_

/-- Conversion constructor from a unit error lvalue (lines 407-411):
delegates to `Base(ErrorTag, that.Error())`. -/
def EitherSE.ofUnitErrorCopy (that : EitherVoidE E) : EitherSE S E :=
  Storage.mkError that.Error

/-- Conversion constructor from a unit error rvalue (lines 413-418):
copies `that` into a temporary and moves the payload out of it. -/
def EitherSE.ofUnitErrorMove (that : EitherVoidE E) : EitherSE S E :=
  Storage.mkError that.err_val_

/-- The copy construction that actually executes for `Either<S, E> b(a)`.
The hand-written template at lines 364-369 never runs: the templates do
not suppress the implicitly-declared copy constructor, and overload
resolution prefers that non-template member, which performs a memberwise
copy of the `Storage` base. -/
def EitherSE.copyCtor (that : EitherSE S E) : EitherSE S E := that

/-- The copy assignment that actually executes for `b = a`. The
hand-written template at lines 378-384 loses overload resolution to the
implicitly-declared non-template copy assignment operator, which performs
a memberwise copy of the `Storage` base. (Had the template run, its body
`static_cast<Base>(*this) = static_cast<Base const&>(that)` assigns into a
temporary created by the value cast and would leave the destination
unchanged.) Returns the updated destination. -/
def EitherSE.copyAssign (_self that : EitherSE S E) : EitherSE S E := that

/-- The move assignment that actually executes for `b = std::move(a)`
when both payload types are trivially destructible (as in every
instantiation the repository uses for assignment): the implicitly-declared
non-template move assignment operator wins overload resolution over the
template at lines 386-391 and performs a memberwise (bitwise) copy of the
`Storage` base, leaving the source untouched — in particular the source
discriminant is NOT reset to `kEmpty`. Returns the pair (destination
afterwards, source afterwards). -/
def EitherSE.moveAssign (_self that : EitherSE S E) :
    EitherSE S E × EitherSE S E := (that, that)

/-- The move assignment template exactly as written (lines 386-391): the
body `static_cast<Base>(*this) = static_cast<Base&&>(that)` casts to the
non-reference type `Base`, which creates a temporary copy of `*this` and
assigns into that temporary; both the destination and the source are left
unchanged. Returns the pair (destination afterwards, source afterwards). -/
def EitherSE.moveAssignAsWritten (self that : EitherSE S E) :
    EitherSE S E × EitherSE S E := (self, that)

/-- Converting assignment from a unit success lvalue (lines 421-431): sets
the discriminant to `kHasSuccess` and copy-assigns the success union
member. The source never throws on this path; the `Except` codomain
records that no error is raised. -/
def EitherSE.assignUnitSuccessCopy (_self : EitherSE S E)
    (that : EitherSVoid S) : Except EtError (EitherSE S E) :=
  Except.ok ⟨StorageState.kHasSuccess, some (Sum.inl that.Success)⟩

/-- Converting assignment from a unit success rvalue, exactly as written
(lines 433-444): line 439 sets the discriminant to `kHasError` while line
440 move-assigns the SUCCESS union member. No error is raised. -/
def EitherSE.assignUnitSuccessMove (_self : EitherSE S E)
    (that : EitherSVoid S) : Except EtError (EitherSE S E) :=
  Except.ok ⟨StorageState.kHasError, some (Sum.inl that.succ_val_)⟩

/-- The assignment that actually executes for `b = unit_error_lvalue`.
The converting assignment operator declared at lines 446-456 is never
viable: its second template parameter `std::enable_if_t<...>` is a
non-type parameter of type void, so substitution always fails. Overload
resolution instead converts the unit error through the conversion
constructor (lines 407-411) and uses the implicit copy assignment. No
error is raised. -/
def EitherSE.assignUnitErrorCopy (self : EitherSE S E)
    (that : EitherVoidE E) : Except EtError (EitherSE S E) :=
  Except.ok (EitherSE.copyAssign self (EitherSE.ofUnitErrorCopy that))

/-- The assignment that actually executes for `b = unit_error_rvalue`.
The converting assignment operator declared at lines 458-469 is never
viable (same ill-formed enable_if non-type parameter; its body also
misspells `state_` as `steate_` at line 464). Overload resolution converts
through the conversion constructor (lines 413-418) and uses the implicit
move assignment. No error is raised. -/
def EitherSE.assignUnitErrorMove (self : EitherSE S E)
    (that : EitherVoidE E) : Except EtError (EitherSE S E) :=
  Except.ok (EitherSE.moveAssign self (EitherSE.ofUnitErrorMove that)).1

/-- Line 556-559: `operator==` on two unit success values compares the
payloads. -/
def eqSVoid [DecidableEq S] (lhs rhs : EitherSVoid S) : Bool :=
  decide (lhs.Success = rhs.Success)

/-- Lines 561-565: `operator==` on two unit error values, exactly as
written: `return rhs.Error() == rhs.Error();` — it compares the right
operand with itself and ignores the left operand entirely. -/
def eqVoidE [DecidableEq E] (_lhs rhs : EitherVoidE E) : Bool :=
  decide (rhs.Error = rhs.Error)

/-- Lines 567-571: `operator==` between a unit success and a unit error is
constantly false. -/
def eqSVoidVoidE (_lhs : EitherSVoid S) (_rhs : EitherVoidE E) : Bool :=
  false

/-- Lines 573-582: `operator==` on two full `Either<S, E>` values. When
both are success-holding it compares the success payloads; otherwise, when
the two `IsError()` results agree, it calls `Error()` on BOTH operands —
which throws `BadEitherAccess` when they are not error-holding; otherwise
it returns false. -/
def eqSE [DecidableEq S] [DecidableEq E] (lhs rhs : EitherSE S E) :
    Except EtError Bool :=
  if lhs.IsSuccess && rhs.IsSuccess then do
    let a ← lhs.SuccessRef
    let b ← rhs.SuccessRef
    pure (decide (a = b))
  else if lhs.IsError == rhs.IsError then do
    let a ← lhs.ErrorRef
    let b ← rhs.ErrorRef
    pure (decide (a = b))
  else
    pure false

/-- Lines 592-595: streaming a unit success renders the payload with no
framing; `showS` stands for the stream inserter of the payload type. -/
def streamSVoid (showS : S → String) (e : EitherSVoid S) : String :=
  showS e.Success

/-- Lines 597-600: streaming a unit error renders the payload with no
framing. -/
def streamVoidE (showE : E → String) (e : EitherVoidE E) : String :=
  showE e.Error

/-- Lines 602-609: streaming a full `Either<S, E>` renders the success
payload when `operator bool` (IsSuccess) holds and otherwise the result of
`Error()` — which throws when the instance is empty. -/
def streamSE (showS : S → String) (showE : E → String) (e : EitherSE S E) :
    Except EtError String :=
  if e.toBool then do
    pure (showS (← e.SuccessRef))
  else do
    pure (showE (← e.ErrorRef))

/-- C1: for every success value s, the unit success `Success(s)` satisfies
`IsSuccess() == true`, `IsError() == false`, converts to bool as true, its
`Success()` accessor returns s, and its `Error()` accessor fails with the
invalid-variant-access error; symmetrically for the unit error form. -/
theorem c1_unit_form_observers (s : S) (e : E) :
    (Success s).IsSuccess = true ∧
    (Success s).IsError = false ∧
    (Success s).toBool = true ∧
    (Success s).Success = s ∧
    (Success s).Error =
      Except.error (EtError.badEitherAccess "[et::Either<S, void>::Error]") ∧
    (Error e).IsError = true ∧
    (Error e).IsSuccess = false ∧
    (Error e).toBool = false ∧
    (Error e).Error = e ∧
    (Error e).Success =
      Except.error (EtError.badEitherAccess "[et::Either<void, E>::Success]") :=
  ⟨rfl, rfl, rfl, rfl, rfl, rfl, rfl, rfl, rfl, rfl⟩

/-- C2: the claim says that after `b = std::move(a)` the source `a` is left
empty with `IsSuccess() == false`. The code violates this: for the move
assignment that actually executes (a memberwise copy of the Storage base),
the source keeps its discriminant — at the concrete input where a holds
Success 7 and b holds Error x, the source still reports `IsSuccess() ==
true` afterwards. The conjuncts also record that the move assignment
operator template exactly as written would leave even the destination
unchanged, and that the Storage move constructor (the path move
construction of non-trivially-destructible payloads takes, and the evident
intent) does reset the source discriminant to empty. -/
theorem c2_move_assignment_does_not_empty_source :
    (EitherSE.moveAssign (EitherSE.ofUnitErrorCopy ⟨'x'⟩ : EitherSE Int Char)
        (EitherSE.ofUnitSuccessCopy ⟨7⟩)).2.IsSuccess = true ∧
    (EitherSE.moveAssign (EitherSE.ofUnitErrorCopy ⟨'x'⟩ : EitherSE Int Char)
        (EitherSE.ofUnitSuccessCopy ⟨7⟩)).2.IsError = false ∧
    EitherSE.moveAssignAsWritten
        (EitherSE.ofUnitErrorCopy ⟨'x'⟩ : EitherSE Int Char)
        (EitherSE.ofUnitSuccessCopy ⟨7⟩) =
      (EitherSE.ofUnitErrorCopy ⟨'x'⟩, EitherSE.ofUnitSuccessCopy ⟨7⟩) ∧
    EitherSE.IsSuccess
        (Storage.moveCtor (Storage.mkSuccess 7 : EitherSE Int Char)).2
      = false ∧
    EitherSE.IsError
        (Storage.moveCtor (Storage.mkSuccess 7 : EitherSE Int Char)).2
      = false := by
  decide

/-- C3: the claim says two error-holding values with unequal payloads
compare unequal. The unit error `operator==` (line 564) compares the right
operand with itself, so `Error(a) == Error(b)` returns true even though
the payloads differ. -/
theorem c3_unit_error_equality_ignores_left_operand :
    (⟨'a'⟩ : EitherVoidE Char).Error ≠ (⟨'b'⟩ : EitherVoidE Char).Error ∧
    eqVoidE (⟨'a'⟩ : EitherVoidE Char) ⟨'b'⟩ = true := by
  decide

/-- C7: the claim says widening `Success(s)` into `Either<S, E>` through
the converting assignment yields `IsSuccess() == true`. The move
converting assignment as written (line 439) sets the discriminant to
`kHasError` while storing the success payload, so the result reports
`IsSuccess() == false` and `IsError() == true`. -/
theorem c7_move_conversion_assignment_mislabels_state :
    EitherSE.assignUnitSuccessMove
        (EitherSE.ofUnitErrorCopy ⟨'x'⟩ : EitherSE Int Char) ⟨12⟩ =
      Except.ok ⟨StorageState.kHasError, some (Sum.inl 12)⟩ ∧
    EitherSE.IsSuccess
        (⟨StorageState.kHasError, some (Sum.inl 12)⟩ : EitherSE Int Char)
      = false ∧
    EitherSE.IsError
        (⟨StorageState.kHasError, some (Sum.inl 12)⟩ : EitherSE Int Char)
      = true :=
  ⟨rfl, rfl, rfl⟩

/-- C8 counterexample: the claim says an incompatible converting
assignment raises `BadEitherAssign`. At the concrete incompatible input —
an error-only value assigned over a success-holding instance — the
assignment completes normally with an ok result; no error of any kind is
raised. -/
theorem c8_incompatible_assignment_raises_nothing :
    EitherSE.assignUnitErrorMove
        (EitherSE.ofUnitSuccessCopy ⟨7⟩ : EitherSE Int Char) ⟨'z'⟩ =
      Except.ok ⟨StorageState.kHasError, some (Sum.inr 'z')⟩ :=
  rfl

/-- C8 amended: `BadEitherAssign` is declared but never raised — every
converting assignment involving the unit forms completes with an ok
result, for all inputs. -/
theorem c8_no_converting_assignment_raises (self : EitherSE S E)
    (u : EitherSVoid S) (v : EitherVoidE E) :
    (∃ r, EitherSE.assignUnitSuccessCopy self u = Except.ok r) ∧
    (∃ r, EitherSE.assignUnitSuccessMove self u = Except.ok r) ∧
    (∃ r, EitherSE.assignUnitErrorCopy self v = Except.ok r) ∧
    (∃ r, EitherSE.assignUnitErrorMove self v = Except.ok r) :=
  ⟨⟨_, rfl⟩, ⟨_, rfl⟩, ⟨_, rfl⟩, ⟨_, rfl⟩⟩

/-- C4: every instance freshly constructed from a unit form carries the
matching live discriminant, and copy construction or copy assignment from
a live source yields a live discriminant — never `kEmpty` and never an
indeterminate value. -/
theorem c4_fresh_and_copied_instances_are_live :
    (∀ u : EitherSVoid S,
      (EitherSE.ofUnitSuccessCopy u : EitherSE S E).state_
          = StorageState.kHasSuccess ∧
      (EitherSE.ofUnitSuccessMove u : EitherSE S E).state_
          = StorageState.kHasSuccess) ∧
    (∀ v : EitherVoidE E,
      (EitherSE.ofUnitErrorCopy v : EitherSE S E).state_
          = StorageState.kHasError ∧
      (EitherSE.ofUnitErrorMove v : EitherSE S E).state_
          = StorageState.kHasError) ∧
    (∀ a b : EitherSE S E,
      (a.state_ = StorageState.kHasSuccess ∨
       a.state_ = StorageState.kHasError) →
      ((EitherSE.copyCtor a).state_ = StorageState.kHasSuccess ∨
       (EitherSE.copyCtor a).state_ = StorageState.kHasError) ∧
      ((EitherSE.copyAssign b a).state_ = StorageState.kHasSuccess ∨
       (EitherSE.copyAssign b a).state_ = StorageState.kHasError)) ∧
    (∀ (self : EitherSE S E) (u : EitherSVoid S) (v : EitherVoidE E),
      (∃ r, EitherSE.assignUnitSuccessCopy self u = Except.ok r ∧
        (r.state_ = StorageState.kHasSuccess ∨
         r.state_ = StorageState.kHasError)) ∧
      (∃ r, EitherSE.assignUnitSuccessMove self u = Except.ok r ∧
        (r.state_ = StorageState.kHasSuccess ∨
         r.state_ = StorageState.kHasError)) ∧
      (∃ r, EitherSE.assignUnitErrorCopy self v = Except.ok r ∧
        (r.state_ = StorageState.kHasSuccess ∨
         r.state_ = StorageState.kHasError)) ∧
      (∃ r, EitherSE.assignUnitErrorMove self v = Except.ok r ∧
        (r.state_ = StorageState.kHasSuccess ∨
         r.state_ = StorageState.kHasError))) :=
  ⟨fun _ => ⟨rfl, rfl⟩, fun _ => ⟨rfl, rfl⟩, fun _ _ h => ⟨h, h⟩,
   fun _ _ _ =>
    ⟨⟨_, rfl, Or.inl rfl⟩, ⟨_, rfl, Or.inr rfl⟩,
     ⟨_, rfl, Or.inr rfl⟩, ⟨_, rfl, Or.inr rfl⟩⟩⟩

/-- C4 witness: the theorem applied to a concrete live source. -/
theorem c4_fresh_and_copied_instances_are_live_witness :
    (EitherSE.copyCtor
        (EitherSE.ofUnitSuccessCopy ⟨3⟩ : EitherSE Int Char)).state_
        = StorageState.kHasSuccess ∨
    (EitherSE.copyCtor
        (EitherSE.ofUnitSuccessCopy ⟨3⟩ : EitherSE Int Char)).state_
        = StorageState.kHasError :=
  (c4_fresh_and_copied_instances_are_live.2.2.1
    (EitherSE.ofUnitSuccessCopy ⟨3⟩) (EitherSE.ofUnitErrorCopy ⟨'x'⟩)
    (Or.inl rfl)).1

/-- C5: on every well-formed instance, `Success()` fails with
invalid-variant-access exactly when the instance is error-holding or
empty, and otherwise returns the stored success payload; symmetrically for
`Error()`. The failure is the immediate result of the call. -/
theorem c5_accessor_failure_iff_state_mismatch (e : EitherSE S E)
    (hwf : e.wf = true) :
    (e.SuccessRef =
        Except.error (EtError.badEitherAccess
          "[et::Either<S, E>::Success] invalid state access") ↔
      (e.state_ = StorageState.kHasError ∨
       e.state_ = StorageState.kEmpty)) ∧
    (e.state_ = StorageState.kHasSuccess →
      ∃ s, e.val_ = some (Sum.inl s) ∧ e.SuccessRef = Except.ok s) ∧
    (e.ErrorRef =
        Except.error (EtError.badEitherAccess
          "[et::Either<S, E>::Error] invalid state access") ↔
      (e.state_ = StorageState.kHasSuccess ∨
       e.state_ = StorageState.kEmpty)) ∧
    (e.state_ = StorageState.kHasError →
      ∃ x, e.val_ = some (Sum.inr x) ∧ e.ErrorRef = Except.ok x) := by
  rcases e with ⟨st, v⟩
  cases st <;> rcases v with _ | s | x <;>
    simp_all [Storage.wf, EitherSE.SuccessRef, EitherSE.ErrorRef]

/-- C5 witness: the theorem applied to a concrete success-holding
instance. -/
theorem c5_accessor_failure_iff_state_mismatch_witness :
    Storage.wf (Storage.mkSuccess 5 : EitherSE Int Char) = true ∧
    (EitherSE.ErrorRef (Storage.mkSuccess 5 : EitherSE Int Char) =
        Except.error (EtError.badEitherAccess
          "[et::Either<S, E>::Error] invalid state access") ↔
      ((Storage.mkSuccess 5 : EitherSE Int Char).state_
          = StorageState.kHasSuccess ∨
       (Storage.mkSuccess 5 : EitherSE Int Char).state_
          = StorageState.kEmpty)) :=
  ⟨rfl, (c5_accessor_failure_iff_state_mismatch
    (Storage.mkSuccess 5 : EitherSE Int Char) rfl).2.2.1⟩

/-- C6: on every well-formed instance in the matching live state, one
destructive accessor call returns the stored payload and leaves the
instance empty (`IsSuccess` and `IsError` both false), and a second
destructive call on the now-empty instance fails with
invalid-variant-access. -/
theorem c6_destructive_read_empties_then_fails (e : EitherSE S E)
    (hwf : e.wf = true) :
    (e.state_ = StorageState.kHasSuccess →
      ∃ s e1, e.val_ = some (Sum.inl s) ∧
        e.SuccessMove = Except.ok (s, e1) ∧
        e1.IsSuccess = false ∧ e1.IsError = false ∧
        e1.SuccessMove = Except.error (EtError.badEitherAccess
          "[et::Either<S, E>::Success] invalid state access") ∧
        e1.ErrorMove = Except.error (EtError.badEitherAccess
          "[et::Either<S, E>::Error] invalid state access")) ∧
    (e.state_ = StorageState.kHasError →
      ∃ x e1, e.val_ = some (Sum.inr x) ∧
        e.ErrorMove = Except.ok (x, e1) ∧
        e1.IsSuccess = false ∧ e1.IsError = false ∧
        e1.ErrorMove = Except.error (EtError.badEitherAccess
          "[et::Either<S, E>::Error] invalid state access") ∧
        e1.SuccessMove = Except.error (EtError.badEitherAccess
          "[et::Either<S, E>::Success] invalid state access")) := by
  rcases e with ⟨st, v⟩
  refine ⟨fun h => ?_, fun h => ?_⟩ <;> subst h <;> rcases v with _ | s | x
  · exact absurd hwf (by simp [Storage.wf])
  · exact ⟨s, ⟨StorageState.kEmpty, some (Sum.inl s)⟩,
      rfl, rfl, rfl, rfl, rfl, rfl⟩
  · exact absurd hwf (by simp [Storage.wf])
  · exact absurd hwf (by simp [Storage.wf])
  · exact absurd hwf (by simp [Storage.wf])
  · exact ⟨x, ⟨StorageState.kEmpty, some (Sum.inr x)⟩,
      rfl, rfl, rfl, rfl, rfl, rfl⟩

/-- C6 witness: the theorem applied to a concrete success-holding
instance. -/
theorem c6_destructive_read_empties_then_fails_witness :
    Storage.wf (Storage.mkSuccess 5 : EitherSE Int Char) = true ∧
    ∃ (s : Int) (e1 : EitherSE Int Char),
      (Storage.mkSuccess 5 : EitherSE Int Char).val_ = some (Sum.inl s) ∧
      EitherSE.SuccessMove (Storage.mkSuccess 5 : EitherSE Int Char)
        = Except.ok (s, e1) ∧
      e1.IsSuccess = false ∧ e1.IsError = false ∧
      e1.SuccessMove = Except.error (EtError.badEitherAccess
        "[et::Either<S, E>::Success] invalid state access") ∧
      e1.ErrorMove = Except.error (EtError.badEitherAccess
        "[et::Either<S, E>::Error] invalid state access") :=
  ⟨rfl, (c6_destructive_read_empties_then_fails
    (Storage.mkSuccess 5 : EitherSE Int Char) rfl).1 rfl⟩

/-- C9: streaming an instance with a live payload renders exactly the
textual form of that payload with no framing; in particular the
`Either<Int, Char>` obtained by widening `Success(312)` prints as the text
312 and the one obtained by widening `Error(v)` prints as the text v. -/
theorem c9_stream_renders_live_payload (showS : S → String)
    (showE : E → String) (e : EitherSE S E) :
    (∀ s, e.state_ = StorageState.kHasSuccess →
      e.val_ = some (Sum.inl s) →
      streamSE showS showE e = Except.ok (showS s)) ∧
    (∀ x, e.state_ = StorageState.kHasError →
      e.val_ = some (Sum.inr x) →
      streamSE showS showE e = Except.ok (showE x)) ∧
    streamSE (fun n : Int => toString n) (fun c : Char => toString c)
      (EitherSE.ofUnitSuccessMove ⟨312⟩) = Except.ok "312" ∧
    streamSE (fun n : Int => toString n) (fun c : Char => toString c)
      (EitherSE.ofUnitErrorMove ⟨'v'⟩) = Except.ok "v" := by
  refine ⟨fun s h1 h2 => ?_, fun x h1 h2 => ?_, rfl, rfl⟩
  · rcases e with ⟨st, v⟩
    cases h1
    cases h2
    rfl
  · rcases e with ⟨st, v⟩
    cases h1
    cases h2
    rfl

/-- C9 witness: the theorem applied to a concrete error-holding
instance. -/
theorem c9_stream_renders_live_payload_witness :
    streamSE (fun n : Int => toString n) (fun c : Char => toString c)
      (EitherSE.ofUnitErrorCopy ⟨'v'⟩) = Except.ok "v" :=
  (c9_stream_renders_live_payload (fun n : Int => toString n)
    (fun c : Char => toString c) (EitherSE.ofUnitErrorCopy ⟨'v'⟩)).2.1
    'v' rfl rfl

/-- C10 counterexample: the claim quantifies over every pair that is not
both success-holding and has agreeing `IsError()` results, asserting that
`operator==` raises instead of returning a boolean. A pair of two
error-holding values satisfies that condition, yet the comparison returns
an ordinary boolean result. -/
theorem c10_both_error_pair_compares_normally :
    ((EitherSE.ofUnitErrorCopy ⟨'a'⟩ : EitherSE Int Char).IsSuccess &&
      (EitherSE.ofUnitErrorCopy ⟨'a'⟩ : EitherSE Int Char).IsSuccess)
        = false ∧
    (EitherSE.ofUnitErrorCopy ⟨'a'⟩ : EitherSE Int Char).IsError =
      (EitherSE.ofUnitErrorCopy ⟨'a'⟩ : EitherSE Int Char).IsError ∧
    eqSE (EitherSE.ofUnitErrorCopy ⟨'a'⟩ : EitherSE Int Char)
      (EitherSE.ofUnitErrorCopy ⟨'a'⟩) = Except.ok true :=
  ⟨rfl, rfl, rfl⟩

/-- C10 amended: for every pair that is not both success-holding, whose
`IsError()` results agree, and whose operands are NOT error-holding (in
particular both empty, or one success-holding and the other empty),
`operator==` invokes `Error()` on the non-error-holding left operand and
so fails with invalid-variant-access instead of returning a boolean. -/
theorem c10_amended_eq_raises_when_no_error_operand (lhs rhs : EitherSE S E)
    [DecidableEq S] [DecidableEq E]
    (h1 : (lhs.IsSuccess && rhs.IsSuccess) = false)
    (h2 : lhs.IsError = rhs.IsError)
    (h3 : lhs.IsError = false) :
    eqSE lhs rhs = Except.error (EtError.badEitherAccess
      "[et::Either<S, E>::Error] invalid state access") := by
  simp only [EitherSE.IsError, decide_eq_false_iff_not] at h3
  have h1n : ¬((lhs.IsSuccess && rhs.IsSuccess) = true) := by
    rw [h1]
    exact Bool.false_ne_true
  have h2t : (lhs.IsError == rhs.IsError) = true := by
    rw [h2]
    exact beq_self_eq_true rhs.IsError
  have hL : lhs.ErrorRef = Except.error (EtError.badEitherAccess
      "[et::Either<S, E>::Error] invalid state access") := by
    simp only [EitherSE.ErrorRef, if_neg h3]
  unfold eqSE
  rw [if_neg h1n, if_pos h2t, hL]
  rfl

/-- C10 amended witness: the amended theorem applied to a concrete pair of
empty instances. -/
theorem c10_amended_eq_raises_when_no_error_operand_witness :
    eqSE (⟨StorageState.kEmpty, none⟩ : EitherSE Int Char)
      ⟨StorageState.kEmpty, none⟩ =
      Except.error (EtError.badEitherAccess
        "[et::Either<S, E>::Error] invalid state access") :=
  c10_amended_eq_raises_when_no_error_operand _ _ rfl rfl rfl

end Et
